import Mathlib

/-!
Shallow embedding of the pizzaApp FastAPI service (`src/main.py`) together
with its store layer.  Only `main.py` is present in the repository snapshot;
the `CRUD`, `models`, `schemas`, `deps` and `utils` modules it imports are
modelled from the specification (each such definition carries a doc comment
starting with `Modelled from the spec:`).  The request handlers themselves
are translated line by line from `main.py`.
-/

namespace PizzaApp

/-- A user row (`models.User`): unique username, unique email, password hash,
permission level. -/
structure UserRec where
  username : String
  email : String
  password : String
  permission_level : Nat
  deriving Repr, DecidableEq

/-- The signup request body (`schemas.UserCreate`). -/
structure UserCreate where
  username : String
  email : String
  password : String
  deriving Repr, DecidableEq

/-- The signup response (`schemas.User`): the created user with no password
field in the output. -/
structure UserOut where
  username : String
  email : String
  permission_level : Nat
  deriving Repr, DecidableEq

/-- A pizza row (`models.Pizza`): id, name, price (smallest currency unit),
active flag.  The ingredient count is derived at read time, never stored. -/
structure Pizza where
  id : Nat
  name : String
  price : Int
  is_active : Bool
  deriving Repr, DecidableEq

/-- The pizza creation body (`schemas.PizzaCreate`). -/
structure PizzaCreate where
  name : String
  price : Int
  is_active : Bool
  deriving Repr, DecidableEq

/-- An ingredient row (`models.Ingredient`): id, name, category. -/
structure Ingredient where
  id : Nat
  name : String
  category : String
  deriving Repr, DecidableEq

/-- The ingredient creation body (`schemas.IngredientBase`). -/
structure IngredientBase where
  name : String
  category : String
  deriving Repr, DecidableEq

/-- A pizza-ingredient association row (`models.PizzaIngredientAssociation`),
keyed by the (pizza_id, ingredient_id) pair. -/
structure Association where
  pizza_id : Nat
  ingredient_id : Nat
  deriving Repr, DecidableEq

/-- The persistent store: the four tables. -/
structure DB where
  users : List UserRec
  pizzas : List Pizza
  ingredients : List Ingredient
  associations : List Association
  deriving Repr, DecidableEq

/-- An HTTP error raised by a handler (`fastapi.HTTPException`). -/
structure HTTPException where
  status_code : Nat
  detail : String
  deriving Repr, DecidableEq

/-- One element of the pizza-list response (`schemas.PizzaList`), with the
derived `ingredient_number`. -/
structure PizzaList where
  id : Nat
  name : String
  price : Int
  is_active : Bool
  ingredient_number : Nat
  deriving Repr, DecidableEq

/-- The single-pizza response (`schemas.PizzaDetails`): the full pizza detail
including its collection of ingredient associations. -/
structure PizzaDetails where
  id : Nat
  name : String
  price : Int
  is_active : Bool
  ingredients : List Association
  deriving Repr, DecidableEq

/-- The signing purpose of a token: access and refresh tokens are signed for
distinct purposes and are not interchangeable. -/
inductive TokenKind where
  | access
  | refresh
  deriving Repr, DecidableEq

/-- Modelled from the spec: a signed token encoding its signing purpose and
the subject identity (the user's email) it is bound to.  The concrete JWT
encoding lives in the missing `utils` module. -/
structure Token where
  kind : TokenKind
  subject : String
  deriving Repr, DecidableEq

/-- The login response (`schemas.TokenSchema`). -/
structure TokenSchema where
  access_token : Token
  refresh_token : Token
  deriving Repr, DecidableEq

/-- The dict returned by successful delete endpoints. -/
structure StatusDetail where
  status : String
  detail : String
  deriving Repr, DecidableEq

/-! ## Store layer (`CRUD` module) and utilities, modelled from the spec -/

/-- Modelled from the spec: `hashPassword` (missing `utils`), producing the
salted stored hash of a plaintext password at signup time. -/
def get_hashed_password (plaintext : String) : String :=
  "$salted$" ++ plaintext

/-- Modelled from the spec: `verifyPassword` (missing `utils`), comparing a
submitted plaintext against a stored salted hash, with no side effects. -/
def verify_password (plaintext storedHash : String) : Bool :=
  get_hashed_password plaintext == storedHash

namespace CRUD

/-- Modelled from the spec: `getByKey` for User, looking a user up by its
unique username (missing `CRUD.get_user_by_username`). -/
def get_user_by_username (db : DB) (username : String) : Option UserRec :=
  db.users.find? (fun u => u.username == username)

/-- Modelled from the spec: the store's `create` for User (missing
`CRUD.create_user`) builds the row from the supplied signup data, hashing the
password once at signup time.  An absent (`None`) argument carries no signup
data, so no row can be built from it: in the source that attribute access
raises at runtime, modelled here as `none`. -/
def create_user (db : DB) (data : Option UserCreate) : Option (DB × UserRec) :=
  data.map fun d =>
    let row : UserRec :=
      { username := d.username, email := d.email,
        password := get_hashed_password d.password, permission_level := 1 }
    ({ db with users := db.users ++ [row] }, row)

/-- Modelled from the spec: `getByKey` for Pizza (missing `CRUD.get_pizza`). -/
def get_pizza (db : DB) (pizza_id : Nat) : Option Pizza :=
  db.pizzas.find? (fun p => p.id == pizza_id)

/-- Modelled from the spec: pizza list retrieval (missing
`CRUD.get_pizza_list`); `true` returns all pizzas, `false` filters to the
active ones only. -/
def get_pizza_list (db : DB) (get_all : Bool) : List Pizza :=
  if get_all then db.pizzas else db.pizzas.filter (fun p => p.is_active)

/-- Modelled from the spec: the store's `create` for Pizza (missing
`CRUD.create_pizza`); the id is assigned by the store. -/
def create_pizza (db : DB) (new_pizza : PizzaCreate) : DB × Pizza :=
  let nid := (db.pizzas.map (fun p => p.id)).foldl max 0 + 1
  let row : Pizza :=
    { id := nid, name := new_pizza.name, price := new_pizza.price,
      is_active := new_pizza.is_active }
  ({ db with pizzas := db.pizzas ++ [row] }, row)

/-- Modelled from the spec: partial update for Pizza (missing
`CRUD.change_pizza`): only supplied fields change, `None` means leave the
field unchanged; the updated row replaces the old one in the store. -/
def change_pizza (db : DB) (pizza : Pizza) (name : Option String)
    (price : Option Int) (is_active : Option Bool) : DB × Pizza :=
  let p2 : Pizza :=
    { id := pizza.id, name := name.getD pizza.name,
      price := price.getD pizza.price,
      is_active := is_active.getD pizza.is_active }
  ({ db with pizzas := db.pizzas.map (fun q => if q.id == pizza.id then p2 else q) }, p2)

/-- Modelled from the spec: `getByKey` for Ingredient (missing
`CRUD.get_ingredient`). -/
def get_ingredient (db : DB) (ingredient_id : Nat) : Option Ingredient :=
  db.ingredients.find? (fun i => i.id == ingredient_id)

/-- Modelled from the spec: the store's `create` for Ingredient (missing
`CRUD.create_ingredient`). -/
def create_ingredient (db : DB) (new_ingredient : IngredientBase) : DB × Ingredient :=
  let nid := (db.ingredients.map (fun i => i.id)).foldl max 0 + 1
  let row : Ingredient :=
    { id := nid, name := new_ingredient.name, category := new_ingredient.category }
  ({ db with ingredients := db.ingredients ++ [row] }, row)

/-- Modelled from the spec: partial update for Ingredient (missing
`CRUD.change_ingredient`): only supplied fields change, `None` means leave
the field unchanged. -/
def change_ingredient (db : DB) (ingredient : Ingredient) (name : Option String)
    (category : Option String) : DB × Ingredient :=
  let i2 : Ingredient :=
    { id := ingredient.id, name := name.getD ingredient.name,
      category := category.getD ingredient.category }
  ({ db with
      ingredients := db.ingredients.map (fun j => if j.id == ingredient.id then i2 else j) },
   i2)

/-- Modelled from the spec: conditional ingredient deletion (missing
`CRUD.delete_ingredient`): the store attempts the deletion and reports
failure as `false` (leaving the store unchanged) when the ingredient is still
referenced by any association; on success the row is removed and `true`
returned. -/
def delete_ingredient (db : DB) (ingredient : Ingredient) : DB × Bool :=
  if db.associations.any (fun a => a.ingredient_id == ingredient.id) then
    (db, false)
  else
    ({ db with ingredients := db.ingredients.filter (fun i => !(i.id == ingredient.id)) },
     true)

/-- Modelled from the spec: association lookup by the exact
(pizza_id, ingredient_id) pair (missing `CRUD.get_pizza_ing_association`). -/
def get_pizza_ing_association (db : DB) (pizza_id ingredient_id : Nat) :
    Option Association :=
  db.associations.find?
    (fun a => a.pizza_id == pizza_id && a.ingredient_id == ingredient_id)

/-- Modelled from the spec: association creation (missing
`CRUD.add_pizza_ing_association`): inserts the (pizza_id, ingredient_id)
join row and returns it. -/
def add_pizza_ing_association (db : DB) (pizza_id ingredient_id : Nat) :
    DB × Association :=
  let row : Association := { pizza_id := pizza_id, ingredient_id := ingredient_id }
  ({ db with associations := db.associations ++ [row] }, row)

/-- Modelled from the spec: association deletion (missing
`CRUD.delete_pizza_ing_association`): removes the given join row. -/
def delete_pizza_ing_association (db : DB) (association : Association) : DB :=
  { db with
      associations :=
        db.associations.filter
          (fun a => !(a.pizza_id == association.pizza_id &&
                      a.ingredient_id == association.ingredient_id)) }

end CRUD

/-- Modelled from the spec: `issueAccessToken` (missing `utils`), a
short-lived signed token encoding the subject identity. -/
def create_access_token (subject : String) : Token :=
  { kind := TokenKind.access, subject := subject }

/-- Modelled from the spec: `issueRefreshToken` (missing `utils`), a
longer-lived signed token with the same subject encoding but a distinct
signing purpose. -/
def create_refresh_token (subject : String) : Token :=
  { kind := TokenKind.refresh, subject := subject }

/-- The credential presented on an authenticated call, as seen after
signature and expiry checking: either malformed/expired, or a well-formed
bearer token carrying a subject. -/
structure PresentedToken where
  valid_signature : Bool
  expired : Bool
  subject : String
  deriving Repr, DecidableEq

/-- Modelled from the spec: `resolveCurrentUser` (missing `deps`), which
validates the token signature and expiry, extracts the subject, and looks up
the User; it fails with `Unauthorized` (401) when the token is invalid or
expired or the subject is unknown. -/
def get_current_user (db : DB) (token : PresentedToken) :
    Except HTTPException UserRec :=
  if !token.valid_signature || token.expired then
    Except.error { status_code := 401, detail := "Could not validate credentials" }
  else
    match db.users.find? (fun u => u.email == token.subject) with
    | none => Except.error { status_code := 401, detail := "Could not find user" }
    | some u => Except.ok u

/-- Modelled from the spec: the `ingredients` relationship on a Pizza row
(missing `models` module) — the collection of ingredient-association rows
referencing that pizza, loaded live from the store. -/
def pizzaIngredients (db : DB) (pizza_id : Nat) : List Association :=
  db.associations.filter (fun a => a.pizza_id == pizza_id)

/-! ## Request handlers, translated from `src/main.py` -/

/-- The outcome of the signup handler: a created user (serialized without the
password), an HTTP error, or a runtime failure inside the store call. -/
inductive SignupResult where
  | created (db : DB) (user : UserOut)
  | httpError (e : HTTPException)
  | runtimeError
  deriving Repr, DecidableEq

/-- `create_user` handler (`POST /signup`, main.py lines 46-52).  Looks the
username up; when no user is found it calls `CRUD.create_user(db, user)` —
passing the (None) lookup result, exactly as the source does — otherwise it
raises 400. -/
def create_user (db : DB) (data : UserCreate) : SignupResult :=
  let user := CRUD.get_user_by_username db data.username
  if user.isNone then
    match CRUD.create_user db
        (user.map fun u =>
          { username := u.username, email := u.email, password := u.password }) with
    | none => SignupResult.runtimeError
    | some (db2, row) =>
      SignupResult.created db2
        { username := row.username, email := row.email,
          permission_level := row.permission_level }
  else
    SignupResult.httpError { status_code := 400, detail := "The username already exists" }

/-- `login` handler (`POST /login`, main.py lines 54-67). -/
def login (db : DB) (username password : String) : Except HTTPException TokenSchema :=
  match CRUD.get_user_by_username db username with
  | none => Except.error { status_code := 400, detail := "Incorrect username or password" }
  | some user =>
    let hashed_password := user.password
    if verify_password password hashed_password then
      Except.ok { access_token := create_access_token user.email,
                  refresh_token := create_refresh_token user.email }
    else
      Except.error { status_code := 400, detail := "Incorrect username or password" }

/-- `show_pizzas` handler (`GET /pizzas`, main.py lines 74-96): requires the
current user to resolve, then lists pizzas with `ingredient_number` set to
the length of each pizza's live `ingredients` collection. -/
def show_pizzas (db : DB) (token : PresentedToken) :
    Except HTTPException (List PizzaList) :=
  match get_current_user db token with
  | Except.error e => Except.error e
  | Except.ok _ =>
    let get_all := true
    let pizza_list := CRUD.get_pizza_list db get_all
    Except.ok (pizza_list.map fun pizza =>
      { id := pizza.id, name := pizza.name, price := pizza.price,
        is_active := pizza.is_active,
        ingredient_number := (pizzaIngredients db pizza.id).length })

/-- `show_pizza_details` handler (`GET /pizzas/{pizza_id}`, main.py lines
98-115): no current-user dependency at all. -/
def show_pizza_details (db : DB) (pizza_id : Nat) :
    Except HTTPException PizzaDetails :=
  match CRUD.get_pizza db pizza_id with
  | none => Except.error { status_code := 404, detail := "Pizza not found" }
  | some pizza_detail =>
    Except.ok { id := pizza_detail.id, name := pizza_detail.name,
                price := pizza_detail.price, is_active := pizza_detail.is_active,
                ingredients := pizzaIngredients db pizza_detail.id }

/-- `create_pizza` handler (`POST /pizzas/`, main.py lines 117-132). -/
def create_pizza (db : DB) (token : PresentedToken) (new_pizza : PizzaCreate) :
    DB × Except HTTPException Pizza :=
  match get_current_user db token with
  | Except.error e => (db, Except.error e)
  | Except.ok _ =>
    let r := CRUD.create_pizza db new_pizza
    (r.1, Except.ok r.2)

/-- `change_pizza` handler (`PATCH /pizzas/{pizza_id}`, main.py lines
134-157). -/
def change_pizza (db : DB) (token : PresentedToken) (pizza_id : Nat)
    (name : Option String) (price : Option Int) (is_active : Option Bool) :
    DB × Except HTTPException Pizza :=
  match get_current_user db token with
  | Except.error e => (db, Except.error e)
  | Except.ok _ =>
    match CRUD.get_pizza db pizza_id with
    | none => (db, Except.error { status_code := 404, detail := "Pizza not found." })
    | some pizza_detail =>
      let r := CRUD.change_pizza db pizza_detail name price is_active
      (r.1, Except.ok r.2)

/-- `create_ingredient` handler (`POST /ingredients`, main.py lines
161-175). -/
def create_ingredient (db : DB) (token : PresentedToken)
    (new_ingredient : IngredientBase) : DB × Except HTTPException Ingredient :=
  match get_current_user db token with
  | Except.error e => (db, Except.error e)
  | Except.ok _ =>
    let r := CRUD.create_ingredient db new_ingredient
    (r.1, Except.ok r.2)

/-- `change_ingredient` handler (`PATCH /ingredients/{ingredient_id}`,
main.py lines 177-198). -/
def change_ingredient (db : DB) (token : PresentedToken) (ingredient_id : Nat)
    (name : Option String) (category : Option String) :
    DB × Except HTTPException Ingredient :=
  match get_current_user db token with
  | Except.error e => (db, Except.error e)
  | Except.ok _ =>
    match CRUD.get_ingredient db ingredient_id with
    | none => (db, Except.error { status_code := 404, detail := "Ingredient not found." })
    | some ingredient =>
      let r := CRUD.change_ingredient db ingredient name category
      (r.1, Except.ok r.2)

/-- `delete_ingredient` handler (`DELETE /ingredients/{ingredient_id}`,
main.py lines 200-224). -/
def delete_ingredient (db : DB) (token : PresentedToken) (ingredient_id : Nat) :
    DB × Except HTTPException StatusDetail :=
  match get_current_user db token with
  | Except.error e => (db, Except.error e)
  | Except.ok _ =>
    match CRUD.get_ingredient db ingredient_id with
    | none => (db, Except.error { status_code := 404, detail := "Ingredient not found." })
    | some ingredient =>
      let r := CRUD.delete_ingredient db ingredient
      if r.2 then
        let msg := "Ingredient " ++ ingredient.name ++ " with id " ++
          toString ingredient.id ++ " deleted"
        (r.1, Except.ok { status := "completed", detail := msg })
      else
        (r.1, Except.error
          { status_code := 400,
            detail := "Cannot delete an ingredient in an active pizza" })

/-- `add_ingredient_to_pizza` handler
(`POST /pizzas/ingredients/{pizza_id}/{ingredient_id}`, main.py lines
227-253). -/
def add_ingredient_to_pizza (db : DB) (token : PresentedToken)
    (pizza_id ingredient_id : Nat) : DB × Except HTTPException Association :=
  match get_current_user db token with
  | Except.error e => (db, Except.error e)
  | Except.ok _ =>
    if (CRUD.get_pizza db pizza_id).isNone then
      (db, Except.error { status_code := 404, detail := "Pizza not found" })
    else if (CRUD.get_ingredient db ingredient_id).isNone then
      (db, Except.error { status_code := 404, detail := "Ingredient not found" })
    else
      match CRUD.get_pizza_ing_association db pizza_id ingredient_id with
      | some _ =>
        (db, Except.error { status_code := 400, detail := "Association already exists" })
      | none =>
        let r := CRUD.add_pizza_ing_association db pizza_id ingredient_id
        (r.1, Except.ok r.2)

/-- `remove_ingredient_to_pizza` handler
(`DELETE /pizzas/ingredients/{pizza_id}/{ingredient_id}`, main.py lines
255-278).  The confirmation string reproduces the source's adjacent
f-strings, including the missing space before `removed`. -/
def remove_ingredient_to_pizza (db : DB) (token : PresentedToken)
    (pizza_id ingredient_id : Nat) : DB × Except HTTPException StatusDetail :=
  match get_current_user db token with
  | Except.error e => (db, Except.error e)
  | Except.ok _ =>
    match CRUD.get_pizza_ing_association db pizza_id ingredient_id with
    | none => (db, Except.error { status_code := 404, detail := "Association not found" })
    | some association =>
      let msg := "Ingredient " ++ toString association.ingredient_id ++
        "removed from pizza " ++ toString association.pizza_id
      (CRUD.delete_pizza_ing_association db association,
       Except.ok { status := "completed", detail := msg })

/-! ## Concrete fixtures used by the witnesses -/

/-- A registered user whose stored hash corresponds to the plaintext `pw`. -/
def bob : UserRec :=
  { username := "bob", email := "bob@example.com",
    password := get_hashed_password "pw", permission_level := 1 }

/-- A small store populated with one user, two pizzas, two ingredients and
one association. -/
def dbEx : DB :=
  { users := [bob],
    pizzas := [{ id := 1, name := "Margherita", price := 1000, is_active := true },
               { id := 2, name := "Diavola", price := 1200, is_active := false }],
    ingredients := [{ id := 1, name := "Tomato", category := "veg" },
                    { id := 2, name := "Cheese", category := "dairy" }],
    associations := [{ pizza_id := 1, ingredient_id := 1 }] }

/-- A well-formed, unexpired token for `bob`. -/
def tokOK : PresentedToken :=
  { valid_signature := true, expired := false, subject := "bob@example.com" }

/-- A token whose signature does not validate. -/
def tokBad : PresentedToken :=
  { valid_signature := false, expired := false, subject := "bob@example.com" }

/-! ## Theorems -/

/-- C1: the Conflict direction of signup holds (a taken username yields the
400 error and no second record), but on a fresh username the handler passes
the `None` lookup result — not the submitted signup data — to the store's
create, so the call fails at runtime and no User record built from the
submitted data is ever created or returned. -/
theorem create_user_fresh_username_runtime_error (db : DB) (data : UserCreate) :
    (CRUD.get_user_by_username db data.username = none →
      create_user db data = SignupResult.runtimeError) ∧
    (∀ u, CRUD.get_user_by_username db data.username = some u →
      create_user db data =
        SignupResult.httpError { status_code := 400, detail := "The username already exists" }) := by
  constructor
  · intro h
    simp [create_user, CRUD.create_user, h]
  · intro u h
    simp [create_user, h]

/-- Witness for C1 at concrete inputs: a fresh username hits the runtime
failure, a taken one gets the 400 conflict. -/
theorem create_user_fresh_username_runtime_error_witness :
    create_user dbEx { username := "alice", email := "alice@example.com", password := "x" } =
      SignupResult.runtimeError ∧
    create_user dbEx { username := "bob", email := "b2@example.com", password := "x" } =
      SignupResult.httpError { status_code := 400, detail := "The username already exists" } :=
  ⟨(create_user_fresh_username_runtime_error dbEx _).1 rfl,
   (create_user_fresh_username_runtime_error dbEx _).2 bob rfl⟩

/-- C6: every failing login — username absent, or password not matching the
stored hash — produces the identical generic 400 error, with no signal
distinguishing which check failed. -/
theorem login_failure_generic (db : DB) (username password : String)
    (h : CRUD.get_user_by_username db username = none ∨
         ∃ user, CRUD.get_user_by_username db username = some user ∧
           verify_password password user.password = false) :
    login db username password =
      Except.error { status_code := 400, detail := "Incorrect username or password" } := by
  rcases h with h | ⟨user, hu, hv⟩
  · simp [login, h]
  · simp [login, hu, hv]

/-- Witness for C6: an unknown username and a wrong password for a known
user both yield the same generic error. -/
theorem login_failure_generic_witness :
    login dbEx "nobody" "pw" =
      Except.error { status_code := 400, detail := "Incorrect username or password" } ∧
    login dbEx "bob" "wrong" =
      Except.error { status_code := 400, detail := "Incorrect username or password" } :=
  ⟨login_failure_generic dbEx "nobody" "pw" (Or.inl rfl),
   login_failure_generic dbEx "bob" "wrong" (Or.inr ⟨bob, rfl, by decide⟩)⟩

/-- C9: when the username exists and the submitted password matches the
stored hash, login returns an access token and a refresh token, both bound
to that user's identity (its email) and carrying distinct signing
purposes. -/
theorem login_success_token_pair (db : DB) (username password : String)
    (user : UserRec)
    (h1 : CRUD.get_user_by_username db username = some user)
    (h2 : verify_password password user.password = true) :
    login db username password =
      Except.ok
        { access_token := { kind := TokenKind.access, subject := user.email },
          refresh_token := { kind := TokenKind.refresh, subject := user.email } } := by
  simp [login, h1, h2, create_access_token, create_refresh_token]

/-- Witness for C9: `bob` logging in with the matching password receives the
token pair bound to `bob`'s email. -/
theorem login_success_token_pair_witness :
    login dbEx "bob" "pw" =
      Except.ok
        { access_token := { kind := TokenKind.access, subject := "bob@example.com" },
          refresh_token := { kind := TokenKind.refresh, subject := "bob@example.com" } } :=
  login_success_token_pair dbEx "bob" "pw" bob rfl (by decide)

/-- Identity resolution only ever fails with status 401. -/
lemma get_current_user_error_status (db : DB) (tok : PresentedToken)
    (e : HTTPException) (h : get_current_user db tok = Except.error e) :
    e.status_code = 401 := by
  unfold get_current_user at h
  split at h
  · injection h with h2
    rw [← h2]
  · split at h
    · injection h with h2
      rw [← h2]
    · exact absurd h (by simp)

/-- An invalid signature, an expired token, or an unknown subject makes
identity resolution fail. -/
lemma get_current_user_fails (db : DB) (tok : PresentedToken)
    (h : tok.valid_signature = false ∨ tok.expired = true ∨
         db.users.find? (fun u => u.email == tok.subject) = none) :
    ∃ e, get_current_user db tok = Except.error e := by
  unfold get_current_user
  rcases h with h | h | h
  · simp [h]
  · simp [h]
  · split
    · exact ⟨_, rfl⟩
    · simp [h]

/-- C7: every mutating endpoint and the pizza-list endpoint resolve the
caller's identity first: whenever the presented token has an invalid
signature, is expired, or names an unknown subject, each of these endpoints
fails with the same 401 Unauthorized error and leaves the store untouched. -/
theorem endpoints_require_identity (db : DB) (tok : PresentedToken)
    (h : tok.valid_signature = false ∨ tok.expired = true ∨
         db.users.find? (fun u => u.email == tok.subject) = none) :
    ∃ e, e.status_code = 401 ∧
      show_pizzas db tok = Except.error e ∧
      (∀ np, create_pizza db tok np = (db, Except.error e)) ∧
      (∀ pid n pr a, change_pizza db tok pid n pr a = (db, Except.error e)) ∧
      (∀ ni, create_ingredient db tok ni = (db, Except.error e)) ∧
      (∀ iid n c, change_ingredient db tok iid n c = (db, Except.error e)) ∧
      (∀ iid, delete_ingredient db tok iid = (db, Except.error e)) ∧
      (∀ pid iid, add_ingredient_to_pizza db tok pid iid = (db, Except.error e)) ∧
      (∀ pid iid, remove_ingredient_to_pizza db tok pid iid = (db, Except.error e)) := by
  obtain ⟨e, he⟩ := get_current_user_fails db tok h
  refine ⟨e, get_current_user_error_status db tok e he, ?_, ?_, ?_, ?_, ?_, ?_, ?_, ?_⟩
  · simp [show_pizzas, he]
  · intro np
    simp [create_pizza, he]
  · intro pid n pr a
    simp [change_pizza, he]
  · intro ni
    simp [create_ingredient, he]
  · intro iid n c
    simp [change_ingredient, he]
  · intro iid
    simp [delete_ingredient, he]
  · intro pid iid
    simp [add_ingredient_to_pizza, he]
  · intro pid iid
    simp [remove_ingredient_to_pizza, he]

/-- Witness for C7: with a bad-signature token on the sample store, every
gated endpoint returns the same 401 error. -/
theorem endpoints_require_identity_witness :
    tokBad.valid_signature = false ∧
    ∃ e, e.status_code = 401 ∧
      show_pizzas dbEx tokBad = Except.error e ∧
      (∀ np, create_pizza dbEx tokBad np = (dbEx, Except.error e)) ∧
      (∀ pid n pr a, change_pizza dbEx tokBad pid n pr a = (dbEx, Except.error e)) ∧
      (∀ ni, create_ingredient dbEx tokBad ni = (dbEx, Except.error e)) ∧
      (∀ iid n c, change_ingredient dbEx tokBad iid n c = (dbEx, Except.error e)) ∧
      (∀ iid, delete_ingredient dbEx tokBad iid = (dbEx, Except.error e)) ∧
      (∀ pid iid, add_ingredient_to_pizza dbEx tokBad pid iid = (dbEx, Except.error e)) ∧
      (∀ pid iid, remove_ingredient_to_pizza dbEx tokBad pid iid = (dbEx, Except.error e)) :=
  ⟨rfl, endpoints_require_identity dbEx tokBad (Or.inl rfl)⟩

/-- C10: the single-pizza detail endpoint performs no identity resolution:
for any caller it returns the full detail when the pizza exists and the 404
error when it does not, and an error it returns always has status 404, never
401. -/
theorem show_pizza_details_no_identity (db : DB) (pid : Nat) :
    (∀ p, CRUD.get_pizza db pid = some p →
      show_pizza_details db pid = Except.ok
        { id := p.id, name := p.name, price := p.price, is_active := p.is_active,
          ingredients := pizzaIngredients db p.id }) ∧
    (CRUD.get_pizza db pid = none →
      show_pizza_details db pid =
        Except.error { status_code := 404, detail := "Pizza not found" }) ∧
    (∀ e, show_pizza_details db pid = Except.error e → e.status_code = 404) := by
  refine ⟨?_, ?_, ?_⟩
  · intro p hp
    simp [show_pizza_details, hp]
  · intro h
    simp [show_pizza_details, h]
  · intro e he
    unfold show_pizza_details at he
    split at he
    · injection he with h2
      rw [← h2]
    · exact absurd he (by simp)

/-- Witness for C10: on the sample store, pizza 1 is returned in full and
pizza 99 yields the 404 error. -/
theorem show_pizza_details_no_identity_witness :
    show_pizza_details dbEx 1 = Except.ok
      { id := 1, name := "Margherita", price := 1000, is_active := true,
        ingredients := [{ pizza_id := 1, ingredient_id := 1 }] } ∧
    show_pizza_details dbEx 99 =
      Except.error { status_code := 404, detail := "Pizza not found" } :=
  ⟨(show_pizza_details_no_identity dbEx 1).1
     { id := 1, name := "Margherita", price := 1000, is_active := true } rfl,
   (show_pizza_details_no_identity dbEx 99).2.1 rfl⟩

/-- C4: every element of a successful pizza-list response carries an
`ingredient_number` equal to the live count of association rows referencing
that pizza at read time (nothing stored: the `Pizza` row has no such
field). -/
theorem show_pizzas_ingredient_number_live (db : DB) (tok : PresentedToken)
    (lst : List PizzaList) (h : show_pizzas db tok = Except.ok lst) :
    ∀ item ∈ lst, item.ingredient_number =
      (db.associations.filter (fun a => a.pizza_id == item.id)).length := by
  unfold show_pizzas at h
  cases hg : get_current_user db tok with
  | error e =>
    rw [hg] at h
    exact absurd h (by simp)
  | ok u =>
    rw [hg] at h
    injection h with h2
    intro item him
    rw [← h2] at him
    rw [List.mem_map] at him
    obtain ⟨p, hp, rfl⟩ := him
    simp [pizzaIngredients]

/-- The pizza-list response on the sample store. -/
def pzListEx : List PizzaList :=
  [{ id := 1, name := "Margherita", price := 1000, is_active := true,
     ingredient_number := 1 },
   { id := 2, name := "Diavola", price := 1200, is_active := false,
     ingredient_number := 0 }]

/-- Witness for C4: on the sample store, the listed Margherita's
`ingredient_number` equals the count of its association rows. -/
theorem show_pizzas_ingredient_number_live_witness :
    (pzListEx.get ⟨0, by decide⟩).ingredient_number =
      (dbEx.associations.filter
        (fun a => a.pizza_id == (pzListEx.get ⟨0, by decide⟩).id)).length :=
  show_pizzas_ingredient_number_live dbEx tokOK pzListEx rfl
    (pzListEx.get ⟨0, by decide⟩) (by decide)

/-- A non-`none` option has `isNone = false`. -/
lemma isNone_false_of_ne_none {α : Type} {o : Option α} (h : o ≠ none) :
    o.isNone = false := by
  cases o with
  | none => exact absurd rfl h
  | some a => rfl

/-- A list on which `find?` fails contains no element satisfying the
predicate. -/
lemma countP_eq_zero_of_find?_none {α : Type} {p : α → Bool} {l : List α}
    (h : l.find? p = none) : l.countP p = 0 :=
  List.countP_eq_zero.mpr (List.find?_eq_none.mp h)

/-- Filtering out exactly the elements satisfying `p` makes a subsequent
`find? p` fail. -/
lemma find?_filter_not_none {α : Type} (l : List α) (p : α → Bool) :
    (l.filter (fun x => !(p x))).find? p = none := by
  rw [List.find?_eq_none]
  intro x hx
  rw [List.mem_filter] at hx
  simpa using hx.2

/-- The number of association rows for the (pid, iid) pair in the store. -/
def assocCount (db : DB) (pid iid : Nat) : Nat :=
  db.associations.countP (fun a => a.pizza_id == pid && a.ingredient_id == iid)

/-- C2: adding an ingredient to a pizza fails with 404 when either side is
missing, fails with 400 when the pair is already associated (store
untouched), and otherwise creates and returns the association; the store
then holds exactly one row for the pair and an immediate second add of the
same pair fails with 400 and leaves the store unchanged. -/
theorem add_ingredient_association_spec (db : DB) (tok : PresentedToken)
    (pid iid : Nat) (u : UserRec)
    (hauth : get_current_user db tok = Except.ok u) :
    (CRUD.get_pizza db pid = none →
      add_ingredient_to_pizza db tok pid iid =
        (db, Except.error { status_code := 404, detail := "Pizza not found" })) ∧
    (CRUD.get_pizza db pid ≠ none → CRUD.get_ingredient db iid = none →
      add_ingredient_to_pizza db tok pid iid =
        (db, Except.error { status_code := 404, detail := "Ingredient not found" })) ∧
    (CRUD.get_pizza db pid ≠ none → CRUD.get_ingredient db iid ≠ none →
      CRUD.get_pizza_ing_association db pid iid ≠ none →
      add_ingredient_to_pizza db tok pid iid =
        (db, Except.error { status_code := 400, detail := "Association already exists" })) ∧
    (CRUD.get_pizza db pid ≠ none → CRUD.get_ingredient db iid ≠ none →
      CRUD.get_pizza_ing_association db pid iid = none →
      (add_ingredient_to_pizza db tok pid iid).2 =
        Except.ok { pizza_id := pid, ingredient_id := iid } ∧
      assocCount (add_ingredient_to_pizza db tok pid iid).1 pid iid = 1 ∧
      add_ingredient_to_pizza (add_ingredient_to_pizza db tok pid iid).1 tok pid iid =
        ((add_ingredient_to_pizza db tok pid iid).1,
         Except.error { status_code := 400, detail := "Association already exists" })) := by
  refine ⟨?_, ?_, ?_, ?_⟩
  · intro hp
    simp [add_ingredient_to_pizza, hauth, hp]
  · intro hp hi
    simp [add_ingredient_to_pizza, hauth, isNone_false_of_ne_none hp, hi]
  · intro hp hi ha
    cases hv : CRUD.get_pizza_ing_association db pid iid with
    | none => exact absurd hv ha
    | some a =>
      simp [add_ingredient_to_pizza, hauth, isNone_false_of_ne_none hp,
        isNone_false_of_ne_none hi, hv]
  · intro hp hi ha
    have heq : add_ingredient_to_pizza db tok pid iid =
        ({ db with associations :=
            db.associations ++ [{ pizza_id := pid, ingredient_id := iid }] },
         Except.ok { pizza_id := pid, ingredient_id := iid }) := by
      simp [add_ingredient_to_pizza, hauth, isNone_false_of_ne_none hp,
        isNone_false_of_ne_none hi, ha, CRUD.add_pizza_ing_association]
    have ha' := ha
    unfold CRUD.get_pizza_ing_association at ha'
    refine ⟨by rw [heq], ?_, ?_⟩
    · rw [heq]
      unfold assocCount
      rw [List.countP_append, countP_eq_zero_of_find?_none ha']
      simp [List.countP_cons]
    · rw [heq]
      have hauth2 : get_current_user
          { db with associations :=
              db.associations ++ [{ pizza_id := pid, ingredient_id := iid }] } tok =
          Except.ok u := hauth
      have hp2 : CRUD.get_pizza
          { db with associations :=
              db.associations ++ [{ pizza_id := pid, ingredient_id := iid }] } pid ≠
          none := hp
      have hi2 : CRUD.get_ingredient
          { db with associations :=
              db.associations ++ [{ pizza_id := pid, ingredient_id := iid }] } iid ≠
          none := hi
      have hfound : CRUD.get_pizza_ing_association
          { db with associations :=
              db.associations ++ [{ pizza_id := pid, ingredient_id := iid }] } pid iid =
          some { pizza_id := pid, ingredient_id := iid } := by
        unfold CRUD.get_pizza_ing_association
        show (db.associations ++
          [({ pizza_id := pid, ingredient_id := iid } : Association)]).find? _ = _
        rw [List.find?_append, ha']
        simp [List.find?]
      simp [add_ingredient_to_pizza, hauth2, isNone_false_of_ne_none hp2,
        isNone_false_of_ne_none hi2, hfound]

/-- Witness for C2: on the sample store, adding ingredient 2 to pizza 1
succeeds, leaves exactly one (1,2) row, and a second identical add fails
with the 400 conflict without changing the store. -/
theorem add_ingredient_association_spec_witness :
    (add_ingredient_to_pizza dbEx tokOK 1 2).2 =
      Except.ok { pizza_id := 1, ingredient_id := 2 } ∧
    assocCount (add_ingredient_to_pizza dbEx tokOK 1 2).1 1 2 = 1 ∧
    add_ingredient_to_pizza (add_ingredient_to_pizza dbEx tokOK 1 2).1 tokOK 1 2 =
      ((add_ingredient_to_pizza dbEx tokOK 1 2).1,
       Except.error { status_code := 400, detail := "Association already exists" }) :=
  (add_ingredient_association_spec dbEx tokOK 1 2 bob rfl).2.2.2
    (by decide) (by decide) rfl

/-- C3: deleting an ingredient fails with 404 when it is missing; with zero
associations referencing it, a confirmation naming its id and name is
returned and a subsequent get finds nothing; with one or more associations,
the operation fails with 400 and the ingredient still exists afterward. -/
theorem delete_ingredient_spec (db : DB) (tok : PresentedToken) (iid : Nat)
    (u : UserRec) (hauth : get_current_user db tok = Except.ok u) :
    (CRUD.get_ingredient db iid = none →
      delete_ingredient db tok iid =
        (db, Except.error { status_code := 404, detail := "Ingredient not found." })) ∧
    (∀ ing, CRUD.get_ingredient db iid = some ing →
      (db.associations.countP (fun a => a.ingredient_id == iid) = 0 →
        (delete_ingredient db tok iid).2 = Except.ok
          { status := "completed",
            detail := "Ingredient " ++ ing.name ++ " with id " ++
              toString ing.id ++ " deleted" } ∧
        CRUD.get_ingredient (delete_ingredient db tok iid).1 iid = none) ∧
      (0 < db.associations.countP (fun a => a.ingredient_id == iid) →
        delete_ingredient db tok iid =
          (db, Except.error
            { status_code := 400,
              detail := "Cannot delete an ingredient in an active pizza" }) ∧
        CRUD.get_ingredient (delete_ingredient db tok iid).1 iid = some ing)) := by
  constructor
  · intro h
    simp [delete_ingredient, hauth, h]
  · intro ing hs
    have hs' := hs
    unfold CRUD.get_ingredient at hs'
    have hpa := List.find?_some hs'
    have hid : ing.id = iid := beq_iff_eq.mp hpa
    constructor
    · intro hc
      have hany : db.associations.any (fun a => a.ingredient_id == ing.id) = false := by
        rw [List.any_eq_false]
        intro x hx
        rw [hid]
        exact List.countP_eq_zero.mp hc x hx
      refine ⟨?_, ?_⟩
      · simp [delete_ingredient, hauth, hs, CRUD.delete_ingredient, hany]
      · have hstate : (delete_ingredient db tok iid).1 =
            { db with ingredients := db.ingredients.filter (fun i => !(i.id == ing.id)) } := by
          simp [delete_ingredient, hauth, hs, CRUD.delete_ingredient, hany]
        rw [hstate]
        unfold CRUD.get_ingredient
        simp only [hid]
        exact find?_filter_not_none db.ingredients (fun i => i.id == iid)
    · intro hc
      have hany : db.associations.any (fun a => a.ingredient_id == ing.id) = true := by
        rw [List.any_eq_true]
        obtain ⟨a, hmem, hpa⟩ := List.countP_pos_iff.mp hc
        exact ⟨a, hmem, by rw [hid]; exact hpa⟩
      have heq : delete_ingredient db tok iid =
          (db, Except.error
            { status_code := 400,
              detail := "Cannot delete an ingredient in an active pizza" }) := by
        simp [delete_ingredient, hauth, hs, CRUD.delete_ingredient, hany]
      exact ⟨heq, by rw [heq]; exact hs⟩

/-- Witness for C3: on the sample store, ingredient 2 (no associations) is
deleted with the confirmation message and is gone afterwards; ingredient 1
(one association) is blocked with the 400 error and remains. -/
theorem delete_ingredient_spec_witness :
    ((delete_ingredient dbEx tokOK 2).2 = Except.ok
      { status := "completed", detail := "Ingredient Cheese with id 2 deleted" } ∧
     CRUD.get_ingredient (delete_ingredient dbEx tokOK 2).1 2 = none) ∧
    (delete_ingredient dbEx tokOK 1 =
      (dbEx, Except.error
        { status_code := 400,
          detail := "Cannot delete an ingredient in an active pizza" }) ∧
     CRUD.get_ingredient (delete_ingredient dbEx tokOK 1).1 1 =
       some { id := 1, name := "Tomato", category := "veg" }) :=
  ⟨((delete_ingredient_spec dbEx tokOK 2 bob rfl).2
      { id := 2, name := "Cheese", category := "dairy" } rfl).1 (by decide),
   ((delete_ingredient_spec dbEx tokOK 1 bob rfl).2
      { id := 1, name := "Tomato", category := "veg" } rfl).2 (by decide)⟩

/-- C8: removing an association returns, when the pair exists, a confirmation
naming both ids and actually deletes the row (a subsequent pair lookup finds
nothing); when the pair does not exist it fails with 404 and the store is
returned unchanged. -/
theorem remove_association_spec (db : DB) (tok : PresentedToken)
    (pid iid : Nat) (u : UserRec)
    (hauth : get_current_user db tok = Except.ok u) :
    (CRUD.get_pizza_ing_association db pid iid = none →
      remove_ingredient_to_pizza db tok pid iid =
        (db, Except.error { status_code := 404, detail := "Association not found" })) ∧
    (∀ assoc, CRUD.get_pizza_ing_association db pid iid = some assoc →
      (remove_ingredient_to_pizza db tok pid iid).2 = Except.ok
        { status := "completed",
          detail := "Ingredient " ++ toString iid ++
            "removed from pizza " ++ toString pid } ∧
      CRUD.get_pizza_ing_association
        (remove_ingredient_to_pizza db tok pid iid).1 pid iid = none) := by
  constructor
  · intro h
    simp [remove_ingredient_to_pizza, hauth, h]
  · intro assoc ha
    have ha' := ha
    unfold CRUD.get_pizza_ing_association at ha'
    have hq := List.find?_some ha'
    rw [Bool.and_eq_true] at hq
    have h1 : assoc.pizza_id = pid := beq_iff_eq.mp hq.1
    have h2 : assoc.ingredient_id = iid := beq_iff_eq.mp hq.2
    have heq : remove_ingredient_to_pizza db tok pid iid =
        (CRUD.delete_pizza_ing_association db assoc,
         Except.ok
           { status := "completed",
             detail := "Ingredient " ++ toString assoc.ingredient_id ++
               "removed from pizza " ++ toString assoc.pizza_id }) := by
      simp [remove_ingredient_to_pizza, hauth, ha]
    constructor
    · rw [heq, h2, h1]
    · rw [heq]
      unfold CRUD.get_pizza_ing_association CRUD.delete_pizza_ing_association
      simp only [h1, h2]
      exact find?_filter_not_none db.associations
        (fun a => a.pizza_id == pid && a.ingredient_id == iid)

/-- Witness for C8: on the sample store, removing the (1,1) association
returns the confirmation naming both ids and the pair is gone afterwards;
removing the absent (1,2) association yields the 404 error with the store
unchanged. -/
theorem remove_association_spec_witness :
    ((remove_ingredient_to_pizza dbEx tokOK 1 1).2 = Except.ok
      { status := "completed", detail := "Ingredient 1removed from pizza 1" } ∧
     CRUD.get_pizza_ing_association
       (remove_ingredient_to_pizza dbEx tokOK 1 1).1 1 1 = none) ∧
    remove_ingredient_to_pizza dbEx tokOK 1 2 =
      (dbEx, Except.error { status_code := 404, detail := "Association not found" }) :=
  ⟨(remove_association_spec dbEx tokOK 1 1 bob rfl).2
     { pizza_id := 1, ingredient_id := 1 } rfl,
   (remove_association_spec dbEx tokOK 1 2 bob rfl).1 rfl⟩

/-- Replacing, in place, every pizza whose id matches the one `find?`
located yields a list on which the same `find?` returns the
replacement. -/
lemma find?_map_update (l : List Pizza) (pid : Nat) (p p2 : Pizza)
    (hfind : l.find? (fun q => q.id == pid) = some p)
    (hid : p2.id = pid) :
    (l.map (fun q => if q.id == p.id then p2 else q)).find?
      (fun q => q.id == pid) = some p2 := by
  induction l with
  | nil => exact absurd hfind (by simp)
  | cons a t ih =>
    by_cases ha : (a.id == pid) = true
    · rw [List.find?_cons_of_pos t ha] at hfind
      injection hfind with hap
      subst hap
      rw [List.map_cons]
      have hfa : (if (a.id == a.id) = true then p2 else a) = p2 := by simp
      rw [hfa]
      exact List.find?_cons_of_pos _ (by simp [hid])
    · rw [List.find?_cons_of_neg t ha] at hfind
      have hpid := List.find?_some hfind
      rw [List.map_cons]
      have hfa : (if (a.id == p.id) = true then p2 else a) = a := by
        rw [if_neg]
        intro hh
        apply ha
        have h1 : a.id = p.id := beq_iff_eq.mp hh
        have h2 : p.id = pid := beq_iff_eq.mp hpid
        rw [h1, h2]
        simp
      rw [hfa]
      have step : List.find? (fun q => q.id == pid)
          (a :: List.map (fun q => if q.id == p.id then p2 else q) t) =
          List.find? (fun q => q.id == pid)
            (List.map (fun q => if q.id == p.id then p2 else q) t) :=
        List.find?_cons_of_neg _ ha
      rw [step]
      exact ih hfind

/-- C5: patching an existing pizza changes exactly the supplied fields —
each absent (`None`) field keeps its old value, in the returned pizza and
in the store (a round-trip get sees the same record) — and patching a
non-existent pizza fails with 404. -/
theorem change_pizza_partial_update (db : DB) (tok : PresentedToken)
    (pid : Nat) (nm : Option String) (pr : Option Int) (act : Option Bool)
    (u : UserRec) (hauth : get_current_user db tok = Except.ok u) :
    (CRUD.get_pizza db pid = none →
      change_pizza db tok pid nm pr act =
        (db, Except.error { status_code := 404, detail := "Pizza not found." })) ∧
    (∀ p, CRUD.get_pizza db pid = some p →
      (change_pizza db tok pid nm pr act).2 = Except.ok
        { id := p.id, name := nm.getD p.name, price := pr.getD p.price,
          is_active := act.getD p.is_active } ∧
      CRUD.get_pizza (change_pizza db tok pid nm pr act).1 pid = some
        { id := p.id, name := nm.getD p.name, price := pr.getD p.price,
          is_active := act.getD p.is_active }) := by
  constructor
  · intro h
    simp [change_pizza, hauth, h]
  · intro p hp
    have hp' := hp
    unfold CRUD.get_pizza at hp'
    have hpb := List.find?_some hp'
    have hpid : p.id = pid := beq_iff_eq.mp hpb
    constructor
    · simp [change_pizza, hauth, hp, CRUD.change_pizza]
    · have hstate : (change_pizza db tok pid nm pr act).1 =
          { db with pizzas := db.pizzas.map (fun q =>
              if q.id == p.id then
                { id := p.id, name := nm.getD p.name, price := pr.getD p.price,
                  is_active := act.getD p.is_active }
              else q) } := by
        simp [change_pizza, hauth, hp, CRUD.change_pizza]
      rw [hstate]
      unfold CRUD.get_pizza
      exact find?_map_update db.pizzas pid p _ hp' hpid

/-- Witness for C5: on the sample store, patching pizza 1 with only a price
leaves its name and active flag unchanged (also after a round-trip get), and
patching the absent pizza 99 yields the 404 error. -/
theorem change_pizza_partial_update_witness :
    ((change_pizza dbEx tokOK 1 none (some 1500) none).2 = Except.ok
      { id := 1, name := "Margherita", price := 1500, is_active := true } ∧
     CRUD.get_pizza (change_pizza dbEx tokOK 1 none (some 1500) none).1 1 = some
      { id := 1, name := "Margherita", price := 1500, is_active := true }) ∧
    change_pizza dbEx tokOK 99 none (some 1500) none =
      (dbEx, Except.error { status_code := 404, detail := "Pizza not found." }) :=
  ⟨(change_pizza_partial_update dbEx tokOK 1 none (some 1500) none bob rfl).2
     { id := 1, name := "Margherita", price := 1000, is_active := true } rfl,
   (change_pizza_partial_update dbEx tokOK 99 none (some 1500) none bob rfl).1 rfl⟩

end PizzaApp
